import Mathlib

/-!
Verification development for the Pallet Guard scan-and-reconcile engine.

The definitions below are a shallow embedding of `src/scanner.js` and
`src/api.js`: JavaScript objects become structures with `Option` fields
(`none` models a missing / `undefined` property), JS truthiness coalescing
(`a || b`) becomes the `jsStr` / `jsNum` / `jsInt` helpers, the two
module-level dedup `Set`s become the `ScanState` record threaded through
the per-PO loop, and the network void call becomes an oracle
`String → VoidOutcome` so that every possible outcome of the DELETE
request is covered.  Numeric fields are modelled as `Option Int`, where
`none` stands for an absent field or a `NaN` produced by `parseFloat`.
-/

namespace PalletGuard

/-- JS coalescing `a || d` for an optional string: `none` models `undefined`,
and the empty string is falsy. -/
def jsStr : Option String → String → String
  | some s, d => if s = "" then d else s
  | none, d => d

/-- JS coalescing `a || d` for an optional number: `none` models
`undefined`/`NaN`, and `0` is falsy. -/
def jsNum : Option Int → Int → Int
  | some v, d => if v = 0 then d else v
  | none, d => d

/-- JS coalescing `v || d` for a number that is certainly present. -/
def jsInt (v d : Int) : Int := if v = 0 then d else v

/-- One record of the PO source (`pos` endpoint), scanner.js lines 90-96. -/
structure PurchaseOrder where
  poNumber : Option String
  truckId : Option String
  palletWhiteInCount : Option Int
  palletChepInCount : Option Int
  palletPecoInCount : Option Int
  palletIgpsInCount : Option Int
deriving DecidableEq, Repr

/-- One record of the ancillary-item source, scanner.js lines 58-67.  The
`quantity` field models the result of `parseFloat(item.quantity)`: `none`
when the raw value is non-numeric (`NaN`). -/
structure AncItem where
  pO_Number : Option String
  additional_Fee_Name : Option String
  carrier_Name : Option String
  quantity : Option Int
deriving DecidableEq, Repr

/-- One record of the Load Entry truck-summary source, scanner.js lines 82-85. -/
structure TruckSummary where
  truckID : Option String
  driverWalletCheckoutID : Option String
  carrierName : Option String
deriving DecidableEq, Repr

/-- Per-PO status, scanner.js lines 101-131. -/
inductive Status where
  | OK
  | OVER
  | CANCELLED
deriving DecidableEq, Repr

inductive ActionType where
  | cancelled
  | overNoWallet
deriving DecidableEq, Repr

/-- An emitted action, scanner.js lines 116-125 and 136-145 (the wall-clock
timestamp string is not modelled). -/
structure Action where
  type : ActionType
  poNumber : String
  truckId : String
  carrier : String
  palletsIn : Int
  restacksUpstacks : Int
  driverWalletCheckoutID : Option String
deriving DecidableEq, Repr

/-- One row of `poData`, scanner.js line 149. -/
structure ScanResult where
  subDept : Int
  poNumber : String
  truckId : String
  carrier : String
  palletsIn : Int
  restacksUpstacks : Int
  status : Status
deriving DecidableEq, Repr

/-- The two module-level dedup sets, scanner.js lines 21-22. -/
structure ScanState where
  voidedCheckoutIDs : List String
  alertedOverPOs : List String
deriving DecidableEq, Repr

/-- State of the fresh process: both dedup sets empty (`new Set()`). -/
def initialState : ScanState := ⟨[], []⟩

/-- Outcome of the `api.voidDriverWalletCheckout` network call for a given
checkout ID: success, an error whose `status` field is 401, or any other
error. -/
inductive VoidOutcome where
  | success
  | authExpired
  | failure
deriving DecidableEq, Repr

/-- JS `s.toLowerCase()`, character by character (ASCII case mapping). -/
def jsToLower (s : String) : String := String.mk (s.data.map Char.toLower)

/-- JS `s.trim()`: drop leading and trailing whitespace. -/
def jsTrim (s : String) : String :=
  String.mk (((s.data.dropWhile Char.isWhitespace).reverse.dropWhile
    Char.isWhitespace).reverse)

/-- Normalisation of an ancillary fee name, scanner.js line 61:
`(item.additional_Fee_Name || '').toLowerCase().trim()`. -/
def normFee (o : Option String) : String := jsTrim (jsToLower (jsStr o ""))

/-- One iteration of the ancillary loop for `restacksByPO`,
scanner.js lines 61-66. -/
def restackStep (m : String → Int) (item : AncItem) : String → Int :=
  if normFee item.additional_Fee_Name = "restack" ∨
      normFee item.additional_Fee_Name = "upstack" then
    match item.pO_Number with
    | some p =>
        if p = "" then m
        else fun k => if k = p then jsInt (m p) 0 + jsNum item.quantity 0 else m k
    | none => m
  else m

/-- The `restacksByPO` map, scanner.js lines 56-67 (absent keys read as 0,
matching `restacksByPO[po] || 0`). -/
def restacksByPO (anc : List AncItem) : String → Int :=
  anc.foldl restackStep (fun _ => 0)

/-- The fee-name test of scanner.js line 62, after normalisation. -/
def feeMatch (it : AncItem) : Bool :=
  normFee it.additional_Fee_Name == "restack"
    || normFee it.additional_Fee_Name == "upstack"

/-- An ancillary item contributes to the restack sum of PO number `pn` when
its normalised fee name matches and it carries that PO number. -/
def contributes (pn : String) (it : AncItem) : Bool :=
  feeMatch it && it.pO_Number == some pn

/-- Recogniser for an `over-no-wallet` action about PO number `pn`. -/
def alertFor (pn : String) (a : Action) : Bool :=
  a.type == ActionType.overNoWallet && a.poNumber == pn

/-- One iteration of the ancillary loop for `carrierByPO`,
scanner.js line 60: `if (po && item.carrier_Name) carrierByPO[po] = ...`. -/
def carrierStep (m : String → Option String) (item : AncItem) : String → Option String :=
  match item.pO_Number, item.carrier_Name with
  | some p, some c =>
      if p = "" ∨ c = "" then m
      else fun k => if k = p then some c else m k
  | some _, none => m
  | none, _ => m

/-- The `carrierByPO` map, scanner.js lines 57-67 (last write wins). -/
def carrierByPO (anc : List AncItem) : String → Option String :=
  anc.foldl carrierStep (fun _ => none)

/-- One iteration of the truck loop, scanner.js lines 83-85:
`if (t.truckID) leByTruckID[t.truckID] = t`. -/
def truckStep (m : String → Option TruckSummary) (t : TruckSummary) :
    String → Option TruckSummary :=
  match t.truckID with
  | some tid => if tid = "" then m else fun k => if k = tid then some t else m k
  | none => m

/-- The `leByTruckID` map, scanner.js lines 82-85 (last write wins). -/
def leByTruckID (ts : List TruckSummary) : String → Option TruckSummary :=
  ts.foldl truckStep (fun _ => none)

/-- The PO join key, scanner.js line 91: `po.poNumber || ''`. -/
def poKey (po : PurchaseOrder) : String := jsStr po.poNumber ""

/-- The truck join key, scanner.js line 92: `po.truckId || ''`. -/
def truckKey (po : PurchaseOrder) : String := jsStr po.truckId ""

/-- Pallet-in total, scanner.js lines 95-96: the four sub-counts coalesced
with `|| 0` and summed. -/
def palletsInOf (po : PurchaseOrder) : Int :=
  jsNum po.palletWhiteInCount 0 + jsNum po.palletChepInCount 0
    + jsNum po.palletPecoInCount 0 + jsNum po.palletIgpsInCount 0

/-- Carrier enrichment, scanner.js line 93:
`carrierByPO[poNumber] || (leByTruckID[truckId] ? leByTruckID[truckId].carrierName : '') || ''`. -/
def resolveCarrier (c : String → Option String) (leTruck : Option TruckSummary)
    (poNumber : String) : String :=
  jsStr (c poNumber)
    (jsStr (match leTruck with | some t => t.carrierName | none => none) "")

/-- Checkout resolution, scanner.js lines 106-107:
`leTruck ? (leTruck.driverWalletCheckoutID || null) : null`. -/
def checkoutOf : Option TruckSummary → Option String
  | some t =>
      match t.driverWalletCheckoutID with
      | some s => if s = "" then none else some s
      | none => none
  | none => none

/-- The immutable per-PO context (key fields and counts) from which the
result row and any action are assembled. -/
structure POCtx where
  subDept : Int
  poNumber : String
  truckId : String
  carrier : String
  palletsIn : Int
  restacksUpstacks : Int
deriving DecidableEq, Repr

def mkResult (c : POCtx) (s : Status) : ScanResult :=
  ⟨c.subDept, c.poNumber, c.truckId, c.carrier, c.palletsIn, c.restacksUpstacks, s⟩

def mkAction (t : ActionType) (c : POCtx) (cid : Option String) : Action :=
  ⟨t, c.poNumber, c.truckId, c.carrier, c.palletsIn, c.restacksUpstacks, cid⟩

/-- Result of processing one PO: the threaded dedup state, the `poData` row,
the actions pushed, the checkout IDs submitted to the void endpoint, and
whether a 401 was thrown out of the void call. -/
structure StepOut where
  state : ScanState
  result : ScanResult
  actions : List Action
  voids : List String
  auth401 : Bool
deriving DecidableEq, Repr

/-- The body of `if (isOver)` for an over-limit PO, scanner.js lines 103-147. -/
def decideOver (oracle : String → VoidOutcome) (st : ScanState) (c : POCtx)
    (checkoutID : Option String) : StepOut :=
  match checkoutID with
  | some cid =>
      if cid ∈ st.voidedCheckoutIDs then
        ⟨st, mkResult c .CANCELLED, [], [], false⟩
      else
        match oracle cid with
        | .success =>
            ⟨⟨cid :: st.voidedCheckoutIDs, st.alertedOverPOs⟩,
             mkResult c .CANCELLED, [mkAction .cancelled c (some cid)], [cid], false⟩
        | .authExpired => ⟨st, mkResult c .OVER, [], [cid], true⟩
        | .failure => ⟨st, mkResult c .OVER, [], [cid], false⟩
  | none =>
      if c.poNumber ∈ st.alertedOverPOs then
        ⟨st, mkResult c .OVER, [], [], false⟩
      else
        ⟨⟨st.voidedCheckoutIDs, c.poNumber :: st.alertedOverPOs⟩,
         mkResult c .OVER, [mkAction .overNoWallet c none], [], false⟩

/-- The per-PO context assembled by scanner.js lines 91-99. -/
def poCtx (subDept : Int) (c : String → Option String)
    (l : String → Option TruckSummary) (r : String → Int)
    (po : PurchaseOrder) : POCtx :=
  ⟨subDept, poKey po, truckKey po,
   resolveCarrier c (l (truckKey po)) (poKey po),
   palletsInOf po, jsInt (r (poKey po)) 0⟩

/-- One iteration of the per-PO loop, scanner.js lines 90-150. -/
def scanPO (oracle : String → VoidOutcome) (subDept : Int)
    (r : String → Int) (c : String → Option String)
    (l : String → Option TruckSummary) (st : ScanState)
    (po : PurchaseOrder) : StepOut :=
  let ctx := poCtx subDept c l r po
  if ctx.restacksUpstacks > ctx.palletsIn then
    decideOver oracle st ctx (checkoutOf (l (truckKey po)))
  else
    ⟨st, mkResult ctx .OK, [], [], false⟩

/-- Result of one reconciliation pass over a PO list.  `authError` records
that the loop was aborted by a thrown 401 (in which case `poData` holds only
the rows produced before the abort, and `voids` / `actions` record the
network calls and pushes that already happened). -/
structure CycleOut where
  state : ScanState
  poData : List ScanResult
  actions : List Action
  voids : List String
  authError : Bool
deriving DecidableEq, Repr

/-- The `for (const po of pos)` loop, scanner.js lines 90-150: threads the
dedup state through the POs and rethrows a 401 immediately. -/
def processPOs (oracle : String → VoidOutcome) (subDept : Int)
    (r : String → Int) (c : String → Option String)
    (l : String → Option TruckSummary) :
    ScanState → List PurchaseOrder → CycleOut
  | st, [] => ⟨st, [], [], [], false⟩
  | st, po :: rest =>
    let s := scanPO oracle subDept r c l st po
    if s.auth401 then
      ⟨s.state, [], s.actions, s.voids, true⟩
    else
      let out := processPOs oracle subDept r c l s.state rest
      ⟨out.state, s.result :: out.poData, s.actions ++ out.actions,
       s.voids ++ out.voids, out.authError⟩

/-- The raw inputs of one reconciliation pass for one sub-department. -/
structure CycleInput where
  subDept : Int
  pos : List PurchaseOrder
  ancillary : List AncItem
  trucks : List TruckSummary
deriving Repr

/-- One full reconciliation pass: build the three maps and run the per-PO
loop, scanner.js lines 56-150. -/
def reconcile (oracle : String → VoidOutcome) (st : ScanState)
    (inp : CycleInput) : CycleOut :=
  processPOs oracle inp.subDept (restacksByPO inp.ancillary)
    (carrierByPO inp.ancillary) (leByTruckID inp.trucks) st inp.pos

/-- Aggregate of a whole sequence of reconciliation passes. -/
structure RunOut where
  state : ScanState
  actions : List Action
  voids : List String
deriving Repr

/-- A sequence of scan cycles over the process lifetime: the dedup state
persists across cycles (module-level `Set`s), while actions and submitted
void calls accumulate. -/
def runCycles (oracle : String → VoidOutcome) :
    ScanState → List CycleInput → RunOut
  | st, [] => ⟨st, [], []⟩
  | st, inp :: rest =>
    let o := reconcile oracle st inp
    let rec' := runCycles oracle o.state rest
    ⟨rec'.state, o.actions ++ rec'.actions, o.voids ++ rec'.voids⟩

/-- The error taxonomy of the upstream fetch wrappers, api.js lines 4-22.
Only auth-expired errors carry a `status` property on the thrown object;
the other two kinds are plain `Error`s whose data lives in the message. -/
inductive FetchError where
  | authExpired (status : Nat)
  | upstream (status : Nat) (path : String)
  | malformed (path : String) (snippet : String)
deriving DecidableEq, Repr

/-- The `status` property of the thrown error object (`err.status`):
present (= 401) only for auth-expired errors. -/
def FetchError.statusField : FetchError → Option Nat
  | .authExpired s => some s
  | .upstream _ _ => none
  | .malformed _ _ => none

/-- An upstream HTTP response: status code and raw body text. -/
structure HttpResponse where
  status : Nat
  body : String
deriving DecidableEq, Repr

/-- The fetch API `res.ok` flag: status in the 2xx range. -/
def resOk (r : HttpResponse) : Bool := 200 ≤ r.status && r.status ≤ 299

/-- JS `text.substring(0, n)`. -/
def jsSubstring (s : String) (n : Nat) : String := String.mk (s.data.take n)

/-- The Apex fetch wrapper, api.js lines 4-12, abstracted over the JSON
parser (`parse b = none` models a `JSON.parse` failure) and the received
response. -/
def fetchApex {α : Type} (parse : String → Option α) (endpoint : String)
    (res : HttpResponse) : Except FetchError α :=
  if res.status = 401 then .error (.authExpired 401)
  else if !(resOk res) then .error (.upstream res.status endpoint)
  else
    match parse res.body with
    | some j => .ok j
    | none => .error (.malformed endpoint (jsSubstring res.body 200))

/-- The Load Entry fetch wrapper, api.js lines 14-22: same contract as
`fetchApex` against the second service. -/
def fetchLoadEntry {α : Type} (parse : String → Option α) (endpoint : String)
    (res : HttpResponse) : Except FetchError α :=
  if res.status = 401 then .error (.authExpired 401)
  else if !(resOk res) then .error (.upstream res.status endpoint)
  else
    match parse res.body with
    | some j => .ok j
    | none => .error (.malformed endpoint (jsSubstring res.body 200))

/-- The `try/catch` around the truck-summary fetch, scanner.js lines 71-80:
a 401 rethrows, any other failure is logged and replaced by `[]`. -/
def leTrucksFetch (r : Except FetchError (List TruckSummary)) :
    Except FetchError (List TruckSummary) :=
  match r with
  | .ok ts => .ok ts
  | .error e => if e.statusField = some 401 then .error e else .ok []

/-- One per-sub-department scan, scanner.js lines 38-153, taking the three
fetch outcomes as inputs: the first two fetches propagate any failure, the
third is tolerated via `leTrucksFetch`, then the reconciliation loop runs. -/
def scanOne (oracle : String → VoidOutcome) (subDept : Int)
    (posR : Except FetchError (List PurchaseOrder))
    (ancR : Except FetchError (List AncItem))
    (trR : Except FetchError (List TruckSummary))
    (st : ScanState) : Except FetchError CycleOut := do
  let pos ← posR
  let anc ← ancR
  let trucks ← leTrucksFetch trR
  pure (processPOs oracle subDept (restacksByPO anc) (carrierByPO anc)
    (leByTruckID trucks) st pos)

/-- A calendar date as JS `Date` exposes it: `getFullYear`, `getMonth()+1`,
`getDate`. -/
structure CalDate where
  year : Int
  month : Nat
  day : Nat
deriving DecidableEq, Repr

/-- JS `Date` leap-year rule (Gregorian). -/
def isLeapYear (y : Int) : Bool :=
  (y % 4 == 0 && y % 100 != 0) || y % 400 == 0

/-- Days in a month (1-based), as JS `Date` normalisation uses. -/
def daysInMonth (y : Int) (m : Nat) : Nat :=
  if m = 2 then (if isLeapYear y then 29 else 28)
  else if m = 4 ∨ m = 6 ∨ m = 9 ∨ m = 11 then 30
  else 31

/-- The calendar date one day earlier: `d.setDate(d.getDate() - 1)` with
JS rollover across month and year boundaries. -/
def prevDay (d : CalDate) : CalDate :=
  if 1 < d.day then ⟨d.year, d.month, d.day - 1⟩
  else if 1 < d.month then ⟨d.year, d.month - 1, daysInMonth d.year (d.month - 1)⟩
  else ⟨d.year - 1, 12, 31⟩

/-- A wall-clock instant: its calendar date and hour of day. -/
structure WallClock where
  date : CalDate
  hour : Nat
deriving DecidableEq, Repr

/-- The operational date, api.js lines 34-41: before 02:00 the previous
calendar day, otherwise today. -/
def getOperationalDate (now : WallClock) : CalDate :=
  if now.hour < 2 then prevDay now.date else now.date

/-- JS `String(n).padStart(2, '0')`. -/
def pad2 (n : Nat) : String :=
  let s := toString n
  if s.length < 2 then "0" ++ s else s

/-- The `MM-DD-YYYY` formatter for the PO/ancillary source, api.js
lines 43-46. -/
def todayApex (now : WallClock) : String :=
  let d := getOperationalDate now
  pad2 d.month ++ "-" ++ pad2 d.day ++ "-" ++ toString d.year

/-- The `YYYY-MM-DD` formatter for the truck-summary source, api.js
lines 48-51. -/
def todayLoadEntry (now : WallClock) : String :=
  let d := getOperationalDate now
  toString d.year ++ "-" ++ pad2 d.month ++ "-" ++ pad2 d.day

/-- Sample PO from the spec's test scenario: `palletWhiteInCount = 5`,
other counts missing, so `palletsIn = 5`. -/
def samplePO : PurchaseOrder := ⟨some "P1", some "T1", some 5, none, none, none⟩

/-- Sample ancillary item: fee "RESTACK " (mixed case, trailing space),
quantity 7, carrier name "ACME". -/
def sampleAnc : AncItem := ⟨some "P1", some "RESTACK ", some "ACME", some 7⟩

/-- Sample truck summary carrying checkout ID "CO123". -/
def sampleTruck : TruckSummary := ⟨some "T1", some "CO123", some "TruckLine"⟩

/-- Sample truck summary whose checkout ID is present but empty. -/
def sampleTruckNW : TruckSummary := ⟨some "T1", some "", some "TruckLine"⟩

/-- Sample cycle input for sub-department 85. -/
def sampleInput : CycleInput := ⟨85, [samplePO], [sampleAnc], [sampleTruck]⟩

/-- Void oracle on which every void call succeeds. -/
def oracleOK : String → VoidOutcome := fun _ => .success

/-- Void oracle on which every void call raises a 401. -/
def oracleAuth : String → VoidOutcome := fun _ => .authExpired

/-- Void oracle on which every void call fails with a non-401 error. -/
def oracleFail : String → VoidOutcome := fun _ => .failure

theorem jsInt_zero (v : Int) : jsInt v 0 = v := by
  unfold jsInt; split <;> simp_all

theorem jsNum_zero (o : Option Int) : jsNum o 0 = o.getD 0 := by
  cases o with
  | none => rfl
  | some v => simp only [jsNum, Option.getD_some]; split <;> simp_all

theorem contributes_iff (pn : String) (it : AncItem) :
    contributes pn it = true ↔
      ((normFee it.additional_Fee_Name = "restack"
          ∨ normFee it.additional_Fee_Name = "upstack")
        ∧ it.pO_Number = some pn) := by
  simp [contributes, feeMatch, Bool.and_eq_true, Bool.or_eq_true, beq_iff_eq]

theorem restackStep_apply (m : String → Int) (it : AncItem) (pn : String)
    (h : pn ≠ "") :
    restackStep m it pn
      = m pn + (if contributes pn it then jsNum it.quantity 0 else 0) := by
  by_cases hc : contributes pn it = true
  · obtain ⟨hfee, hpo⟩ := (contributes_iff pn it).mp hc
    unfold restackStep
    rw [if_pos hfee]
    simp [hpo, h, jsInt_zero, hc]
  · rw [if_neg hc, add_zero]
    by_cases hfee : normFee it.additional_Fee_Name = "restack"
        ∨ normFee it.additional_Fee_Name = "upstack"
    · have hpo : it.pO_Number ≠ some pn := fun hpo =>
        hc ((contributes_iff pn it).mpr ⟨hfee, hpo⟩)
      unfold restackStep
      rw [if_pos hfee]
      cases hq : it.pO_Number with
      | none => rfl
      | some p =>
          by_cases hp : p = ""
          · simp [hp]
          · have hne : pn ≠ p := by
              intro hE; exact hpo (by rw [hq, hE])
            simp [hp, hne]
    · unfold restackStep
      rw [if_neg hfee]

theorem foldl_restack (anc : List AncItem) (pn : String) (h : pn ≠ "") :
    ∀ m : String → Int,
      anc.foldl restackStep m pn
        = m pn + ((anc.filter (contributes pn)).map (fun it => jsNum it.quantity 0)).sum := by
  induction anc with
  | nil => intro m; simp
  | cons it rest ih =>
      intro m
      rw [List.foldl_cons, ih, restackStep_apply m it pn h]
      by_cases hc : contributes pn it
      · simp [hc, List.filter_cons, add_assoc]
      · simp [hc, List.filter_cons]

theorem restacksByPO_apply (anc : List AncItem) (pn : String) (h : pn ≠ "") :
    restacksByPO anc pn
      = ((anc.filter (contributes pn)).map (fun it => jsNum it.quantity 0)).sum := by
  have := foldl_restack anc pn h (fun _ => 0)
  simpa [restacksByPO] using this

theorem restackStep_empty (m : String → Int) (it : AncItem) :
    restackStep m it "" = m "" := by
  unfold restackStep
  split
  · cases hpo : it.pO_Number with
    | none => rfl
    | some p =>
        by_cases hp : p = ""
        · simp [hp]
        · simp [hp, Ne.symm hp]
  · rfl

theorem restacksByPO_empty (anc : List AncItem) : restacksByPO anc "" = 0 := by
  have key : ∀ m : String → Int, anc.foldl restackStep m "" = m "" := by
    induction anc with
    | nil => intro m; rfl
    | cons it rest ih => intro m; rw [List.foldl_cons, ih, restackStep_empty]
  simpa [restacksByPO] using key (fun _ => 0)

theorem decideOver_eq_skip {oracle : String → VoidOutcome} {st : ScanState}
    {c : POCtx} {cid : String} (h : cid ∈ st.voidedCheckoutIDs) :
    decideOver oracle st c (some cid)
      = ⟨st, mkResult c .CANCELLED, [], [], false⟩ := by
  simp [decideOver, h]

theorem decideOver_eq_success {oracle : String → VoidOutcome} {st : ScanState}
    {c : POCtx} {cid : String} (h : cid ∉ st.voidedCheckoutIDs)
    (ho : oracle cid = .success) :
    decideOver oracle st c (some cid)
      = ⟨⟨cid :: st.voidedCheckoutIDs, st.alertedOverPOs⟩, mkResult c .CANCELLED,
         [mkAction .cancelled c (some cid)], [cid], false⟩ := by
  simp [decideOver, h, ho]

theorem decideOver_eq_auth {oracle : String → VoidOutcome} {st : ScanState}
    {c : POCtx} {cid : String} (h : cid ∉ st.voidedCheckoutIDs)
    (ho : oracle cid = .authExpired) :
    decideOver oracle st c (some cid)
      = ⟨st, mkResult c .OVER, [], [cid], true⟩ := by
  simp [decideOver, h, ho]

theorem decideOver_eq_fail {oracle : String → VoidOutcome} {st : ScanState}
    {c : POCtx} {cid : String} (h : cid ∉ st.voidedCheckoutIDs)
    (ho : oracle cid = .failure) :
    decideOver oracle st c (some cid)
      = ⟨st, mkResult c .OVER, [], [cid], false⟩ := by
  simp [decideOver, h, ho]

theorem decideOver_eq_alertNew {oracle : String → VoidOutcome} {st : ScanState}
    {c : POCtx} (h : c.poNumber ∉ st.alertedOverPOs) :
    decideOver oracle st c none
      = ⟨⟨st.voidedCheckoutIDs, c.poNumber :: st.alertedOverPOs⟩,
         mkResult c .OVER, [mkAction .overNoWallet c none], [], false⟩ := by
  simp [decideOver, h]

theorem decideOver_eq_alertSkip {oracle : String → VoidOutcome} {st : ScanState}
    {c : POCtx} (h : c.poNumber ∈ st.alertedOverPOs) :
    decideOver oracle st c none
      = ⟨st, mkResult c .OVER, [], [], false⟩ := by
  simp [decideOver, h]

theorem decideOver_result_shape (oracle : String → VoidOutcome) (st : ScanState)
    (c : POCtx) (k : Option String) :
    ∃ s, (decideOver oracle st c k).result = mkResult c s := by
  cases k with
  | none =>
      by_cases h : c.poNumber ∈ st.alertedOverPOs
      · exact ⟨.OVER, by rw [decideOver_eq_alertSkip h]⟩
      · exact ⟨.OVER, by rw [decideOver_eq_alertNew h]⟩
  | some cid =>
      by_cases h : cid ∈ st.voidedCheckoutIDs
      · exact ⟨.CANCELLED, by rw [decideOver_eq_skip h]⟩
      · cases ho : oracle cid with
        | success => exact ⟨.CANCELLED, by rw [decideOver_eq_success h ho]⟩
        | authExpired => exact ⟨.OVER, by rw [decideOver_eq_auth h ho]⟩
        | failure => exact ⟨.OVER, by rw [decideOver_eq_fail h ho]⟩

theorem decideOver_status_ne_OK (oracle : String → VoidOutcome) (st : ScanState)
    (c : POCtx) (k : Option String) :
    (decideOver oracle st c k).result.status ≠ .OK := by
  cases k with
  | none =>
      by_cases h : c.poNumber ∈ st.alertedOverPOs
      · rw [decideOver_eq_alertSkip h]; simp [mkResult]
      · rw [decideOver_eq_alertNew h]; simp [mkResult]
  | some cid =>
      by_cases h : cid ∈ st.voidedCheckoutIDs
      · rw [decideOver_eq_skip h]; simp [mkResult]
      · cases ho : oracle cid with
        | success => rw [decideOver_eq_success h ho]; simp [mkResult]
        | authExpired => rw [decideOver_eq_auth h ho]; simp [mkResult]
        | failure => rw [decideOver_eq_fail h ho]; simp [mkResult]

theorem scanPO_eq_over {oracle : String → VoidOutcome} {sd : Int}
    {r : String → Int} {c : String → Option String}
    {l : String → Option TruckSummary} {st : ScanState} {po : PurchaseOrder}
    (h : jsInt (r (poKey po)) 0 > palletsInOf po) :
    scanPO oracle sd r c l st po
      = decideOver oracle st (poCtx sd c l r po) (checkoutOf (l (truckKey po))) := by
  simp only [scanPO, poCtx]
  rw [if_pos h]

theorem scanPO_eq_ok {oracle : String → VoidOutcome} {sd : Int}
    {r : String → Int} {c : String → Option String}
    {l : String → Option TruckSummary} {st : ScanState} {po : PurchaseOrder}
    (h : ¬ jsInt (r (poKey po)) 0 > palletsInOf po) :
    scanPO oracle sd r c l st po
      = ⟨st, mkResult (poCtx sd c l r po) .OK, [], [], false⟩ := by
  simp only [scanPO, poCtx]
  rw [if_neg h]

theorem scanPO_result_shape (oracle : String → VoidOutcome) (sd : Int)
    (r : String → Int) (c : String → Option String)
    (l : String → Option TruckSummary) (st : ScanState) (po : PurchaseOrder) :
    ∃ s, (scanPO oracle sd r c l st po).result = mkResult (poCtx sd c l r po) s := by
  by_cases h : jsInt (r (poKey po)) 0 > palletsInOf po
  · rw [scanPO_eq_over h]
    exact decideOver_result_shape oracle st _ _
  · exact ⟨.OK, by rw [scanPO_eq_ok h]⟩

theorem processPOs_cons_auth {oracle : String → VoidOutcome} {sd : Int}
    {r : String → Int} {c : String → Option String}
    {l : String → Option TruckSummary} {st : ScanState} {po : PurchaseOrder}
    {rest : List PurchaseOrder}
    (h : (scanPO oracle sd r c l st po).auth401 = true) :
    processPOs oracle sd r c l st (po :: rest)
      = ⟨(scanPO oracle sd r c l st po).state, [],
         (scanPO oracle sd r c l st po).actions,
         (scanPO oracle sd r c l st po).voids, true⟩ := by
  simp [processPOs, h]

theorem processPOs_cons_go {oracle : String → VoidOutcome} {sd : Int}
    {r : String → Int} {c : String → Option String}
    {l : String → Option TruckSummary} {st : ScanState} {po : PurchaseOrder}
    {rest : List PurchaseOrder}
    (h : (scanPO oracle sd r c l st po).auth401 = false) :
    processPOs oracle sd r c l st (po :: rest)
      = ⟨(processPOs oracle sd r c l (scanPO oracle sd r c l st po).state rest).state,
         (scanPO oracle sd r c l st po).result
           :: (processPOs oracle sd r c l (scanPO oracle sd r c l st po).state rest).poData,
         (scanPO oracle sd r c l st po).actions
           ++ (processPOs oracle sd r c l (scanPO oracle sd r c l st po).state rest).actions,
         (scanPO oracle sd r c l st po).voids
           ++ (processPOs oracle sd r c l (scanPO oracle sd r c l st po).state rest).voids,
         (processPOs oracle sd r c l (scanPO oracle sd r c l st po).state rest).authError⟩ := by
  simp [processPOs, h]

theorem decideOver_void_count (oracle : String → VoidOutcome) (st : ScanState)
    (c : POCtx) (k : Option String) (cid : String) (hs : oracle cid = .success) :
    (decideOver oracle st c k).voids.count cid
      + (if cid ∈ st.voidedCheckoutIDs then 1 else 0)
      ≤ (if cid ∈ (decideOver oracle st c k).state.voidedCheckoutIDs then 1 else 0) := by
  cases k with
  | none =>
      by_cases h : c.poNumber ∈ st.alertedOverPOs
      · rw [decideOver_eq_alertSkip h]; simp
      · rw [decideOver_eq_alertNew h]; simp
  | some cid2 =>
      by_cases h : cid2 ∈ st.voidedCheckoutIDs
      · rw [decideOver_eq_skip h]; simp
      · cases ho : oracle cid2 with
        | success =>
            rw [decideOver_eq_success h ho]
            by_cases hc : cid = cid2
            · subst hc
              simp [h, List.count_cons, List.mem_cons]
            · simp [List.count_cons, List.count_nil, hc, List.mem_cons, beq_iff_eq]
        | authExpired =>
            rw [decideOver_eq_auth h ho]
            by_cases hc : cid = cid2
            · subst hc; rw [hs] at ho; cases ho
            · simp [List.count_cons, List.count_nil, hc, beq_iff_eq]
        | failure =>
            rw [decideOver_eq_fail h ho]
            by_cases hc : cid = cid2
            · subst hc; rw [hs] at ho; cases ho
            · simp [List.count_cons, List.count_nil, hc, beq_iff_eq]

theorem scanPO_void_count (oracle : String → VoidOutcome) (sd : Int)
    (r : String → Int) (c : String → Option String)
    (l : String → Option TruckSummary) (st : ScanState) (po : PurchaseOrder)
    (cid : String) (hs : oracle cid = .success) :
    (scanPO oracle sd r c l st po).voids.count cid
      + (if cid ∈ st.voidedCheckoutIDs then 1 else 0)
      ≤ (if cid ∈ (scanPO oracle sd r c l st po).state.voidedCheckoutIDs then 1 else 0) := by
  by_cases h : jsInt (r (poKey po)) 0 > palletsInOf po
  · rw [scanPO_eq_over h]
    exact decideOver_void_count oracle st _ _ cid hs
  · rw [scanPO_eq_ok h]; simp

theorem processPOs_void_count (oracle : String → VoidOutcome) (sd : Int)
    (r : String → Int) (c : String → Option String)
    (l : String → Option TruckSummary) (cid : String)
    (hs : oracle cid = .success) :
    ∀ (pos : List PurchaseOrder) (st : ScanState),
      (processPOs oracle sd r c l st pos).voids.count cid
        + (if cid ∈ st.voidedCheckoutIDs then 1 else 0)
        ≤ (if cid ∈ (processPOs oracle sd r c l st pos).state.voidedCheckoutIDs then 1 else 0) := by
  intro pos
  induction pos with
  | nil => intro st; simp [processPOs]
  | cons po rest ih =>
      intro st
      by_cases ha : (scanPO oracle sd r c l st po).auth401 = true
      · rw [processPOs_cons_auth ha]
        exact scanPO_void_count oracle sd r c l st po cid hs
      · rw [processPOs_cons_go (by simpa using ha)]
        have h1 := scanPO_void_count oracle sd r c l st po cid hs
        have h2 := ih (scanPO oracle sd r c l st po).state
        simp only [List.count_append]
        omega

theorem runCycles_void_count (oracle : String → VoidOutcome) (cid : String)
    (hs : oracle cid = .success) :
    ∀ (cycles : List CycleInput) (st : ScanState),
      (runCycles oracle st cycles).voids.count cid
        + (if cid ∈ st.voidedCheckoutIDs then 1 else 0)
        ≤ (if cid ∈ (runCycles oracle st cycles).state.voidedCheckoutIDs then 1 else 0) := by
  intro cycles
  induction cycles with
  | nil => intro st; simp [runCycles]
  | cons inp rest ih =>
      intro st
      have h1 := processPOs_void_count oracle inp.subDept (restacksByPO inp.ancillary)
        (carrierByPO inp.ancillary) (leByTruckID inp.trucks) cid hs inp.pos st
      have h2 := ih (reconcile oracle st inp).state
      simp only [runCycles, reconcile] at h2 ⊢
      simp only [List.count_append]
      omega

/-- C1: a checkout ID whose void call succeeds is submitted to the void
endpoint at most once over any sequence of scan cycles started from the
fresh process state; once voided, a later cycle seeing the same over-limit
PO with the same checkout ID reports CANCELLED without another void call;
and reconciling the same over-limit PO twice yields exactly one void call
in the first pass, none in the second, with status CANCELLED both times. -/
theorem C1_checkout_voided_at_most_once (oracle : String → VoidOutcome)
    (cid : String) (cycles : List CycleInput) (hs : oracle cid = .success) :
    (runCycles oracle initialState cycles).voids.count cid ≤ 1
    ∧ (∀ (sd : Int) (r : String → Int) (c : String → Option String)
         (l : String → Option TruckSummary) (st : ScanState) (po : PurchaseOrder),
        cid ∈ st.voidedCheckoutIDs →
        checkoutOf (l (truckKey po)) = some cid →
        jsInt (r (poKey po)) 0 > palletsInOf po →
        (scanPO oracle sd r c l st po).result.status = .CANCELLED
          ∧ (scanPO oracle sd r c l st po).voids = []
          ∧ (scanPO oracle sd r c l st po).state = st)
    ∧ (∀ (sd : Int) (r : String → Int) (c : String → Option String)
         (l : String → Option TruckSummary) (po : PurchaseOrder),
        checkoutOf (l (truckKey po)) = some cid →
        jsInt (r (poKey po)) 0 > palletsInOf po →
        (processPOs oracle sd r c l initialState [po]).voids = [cid]
          ∧ (processPOs oracle sd r c l
              (processPOs oracle sd r c l initialState [po]).state [po]).voids = []
          ∧ (∀ x ∈ (processPOs oracle sd r c l initialState [po]).poData,
              x.status = .CANCELLED)
          ∧ (∀ x ∈ (processPOs oracle sd r c l
              (processPOs oracle sd r c l initialState [po]).state [po]).poData,
              x.status = .CANCELLED)) := by
  refine ⟨?_, ?_, ?_⟩
  · have h := runCycles_void_count oracle cid hs cycles initialState
    have h0 : (if cid ∈ initialState.voidedCheckoutIDs then 1 else 0) = 0 := by
      simp [initialState]
    rw [h0] at h
    have h1 : (if cid ∈ (runCycles oracle initialState cycles).state.voidedCheckoutIDs
        then 1 else 0) ≤ 1 := by split <;> omega
    omega
  · intro sd r c l st po hmem hk hover
    rw [scanPO_eq_over hover, hk, decideOver_eq_skip hmem]
    exact ⟨rfl, rfl, rfl⟩
  · intro sd r c l po hk hover
    have hmem0 : cid ∉ initialState.voidedCheckoutIDs := by simp [initialState]
    have hs1 : scanPO oracle sd r c l initialState po
        = ⟨⟨[cid], []⟩, mkResult (poCtx sd c l r po) .CANCELLED,
           [mkAction .cancelled (poCtx sd c l r po) (some cid)], [cid], false⟩ := by
      rw [scanPO_eq_over hover, hk, decideOver_eq_success hmem0 hs]
      rfl
    have hp1 : processPOs oracle sd r c l initialState [po]
        = ⟨⟨[cid], []⟩, [mkResult (poCtx sd c l r po) .CANCELLED],
           [mkAction .cancelled (poCtx sd c l r po) (some cid)], [cid], false⟩ := by
      rw [processPOs_cons_go (by rw [hs1]), hs1]
      simp [processPOs]
    have hmem1 : cid ∈ (⟨⟨[cid], []⟩, [mkResult (poCtx sd c l r po) .CANCELLED],
        [mkAction .cancelled (poCtx sd c l r po) (some cid)], [cid], false⟩
          : CycleOut).state.voidedCheckoutIDs := by
      simp
    have hs2 : scanPO oracle sd r c l (⟨[cid], []⟩ : ScanState) po
        = ⟨⟨[cid], []⟩, mkResult (poCtx sd c l r po) .CANCELLED, [], [], false⟩ := by
      rw [scanPO_eq_over hover, hk]
      rw [decideOver_eq_skip (by simp)]
    have hp2 : processPOs oracle sd r c l (⟨[cid], []⟩ : ScanState) [po]
        = ⟨⟨[cid], []⟩, [mkResult (poCtx sd c l r po) .CANCELLED], [], [], false⟩ := by
      rw [processPOs_cons_go (by rw [hs2]), hs2]
      simp [processPOs]
    refine ⟨by rw [hp1], ?_, ?_, ?_⟩
    · rw [hp1]
      simp only
      rw [hp2]
    · rw [hp1]
      intro x hx
      simp only [List.mem_singleton] at hx
      rw [hx, mkResult]
    · rw [hp1]
      simp only
      rw [hp2]
      intro x hx
      simp only [List.mem_singleton] at hx
      rw [hx, mkResult]

/-- C2: for every PO processed in a cycle, `palletsIn` is the sum of the four
pallet sub-counts with missing sub-counts treated as 0; `restacksUpstacks`
defaults to 0 when the PO has no matching ancillary items; the PO is
classified over exactly when `restacksUpstacks > palletsIn` (strict), and
whenever `restacksUpstacks ≤ palletsIn` (equality included) the status is
OK and no action, void call, or state change is produced for that PO. -/
theorem C2_palletsIn_sum_and_ok_when_not_over (oracle : String → VoidOutcome)
    (sd : Int) (r : String → Int) (c : String → Option String)
    (l : String → Option TruckSummary) (st : ScanState)
    (po : PurchaseOrder) (anc : List AncItem) :
    (scanPO oracle sd r c l st po).result.palletsIn
        = po.palletWhiteInCount.getD 0 + po.palletChepInCount.getD 0
          + po.palletPecoInCount.getD 0 + po.palletIgpsInCount.getD 0
    ∧ ((∀ it ∈ anc, contributes (poKey po) it = false) →
        restacksByPO anc (poKey po) = 0)
    ∧ (r (poKey po) ≤ palletsInOf po →
        (scanPO oracle sd r c l st po).result.status = .OK
          ∧ (scanPO oracle sd r c l st po).actions = []
          ∧ (scanPO oracle sd r c l st po).voids = []
          ∧ (scanPO oracle sd r c l st po).state = st)
    ∧ ((scanPO oracle sd r c l st po).result.status = .OK
        ↔ ¬ jsInt (r (poKey po)) 0 > palletsInOf po) := by
  refine ⟨?_, ?_, ?_, ?_, ?_⟩
  · obtain ⟨s, hres⟩ := scanPO_result_shape oracle sd r c l st po
    rw [hres]
    simp [mkResult, poCtx, palletsInOf, jsNum_zero]
  · intro hno
    by_cases hpk : poKey po = ""
    · rw [hpk]; exact restacksByPO_empty anc
    · rw [restacksByPO_apply anc _ hpk]
      have hf : anc.filter (contributes (poKey po)) = [] := by
        rw [List.filter_eq_nil_iff]
        intro a ha
        simp [hno a ha]
      rw [hf]; simp
  · intro hle
    have hng : ¬ jsInt (r (poKey po)) 0 > palletsInOf po := by
      rw [jsInt_zero]; omega
    rw [scanPO_eq_ok hng]
    exact ⟨rfl, rfl, rfl, rfl⟩
  · intro hok hgt
    rw [scanPO_eq_over hgt] at hok
    exact decideOver_status_ne_OK oracle st _ _ hok
  · intro hng
    rw [scanPO_eq_ok hng]
    rfl

/-- C8: an ancillary item contributes its defensively parsed quantity to the
restack sum of a PO number exactly when its fee name, lower-cased and
trimmed, equals "restack" or "upstack" and the item carries that PO number;
the fee name "RESTACK " (mixed case, trailing space) counts, and a
non-numeric quantity contributes 0. -/
theorem C8_restack_fee_matching (anc : List AncItem) (pn : String)
    (it : AncItem) (hpn : pn ≠ "") :
    restacksByPO anc pn
        = ((anc.filter (contributes pn)).map (fun x => jsNum x.quantity 0)).sum
    ∧ (contributes pn it = true ↔
        ((jsTrim (jsToLower (jsStr it.additional_Fee_Name "")) = "restack"
            ∨ jsTrim (jsToLower (jsStr it.additional_Fee_Name "")) = "upstack")
          ∧ it.pO_Number = some pn))
    ∧ normFee (some "RESTACK ") = "restack"
    ∧ (it.quantity = none → jsNum it.quantity 0 = 0) := by
  refine ⟨restacksByPO_apply anc pn hpn, ?_, ?_, ?_⟩
  · simpa [normFee] using contributes_iff pn it
  · decide
  · intro h; rw [h]; rfl

theorem alertFor_cancelled (pn : String) (c : POCtx) (k : Option String) :
    alertFor pn (mkAction .cancelled c k) = false := rfl

theorem alertFor_alert (pn : String) (c : POCtx) (k : Option String) :
    alertFor pn (mkAction .overNoWallet c k) = (c.poNumber == pn) := rfl

theorem decideOver_alert_count (oracle : String → VoidOutcome) (st : ScanState)
    (c : POCtx) (k : Option String) (pn : String) :
    (decideOver oracle st c k).actions.countP (alertFor pn)
      + (if pn ∈ st.alertedOverPOs then 1 else 0)
      ≤ (if pn ∈ (decideOver oracle st c k).state.alertedOverPOs then 1 else 0) := by
  cases k with
  | none =>
      by_cases h : c.poNumber ∈ st.alertedOverPOs
      · rw [decideOver_eq_alertSkip h]; simp
      · rw [decideOver_eq_alertNew h]
        by_cases hp : pn = c.poNumber
        · subst hp
          simp [h, List.countP_cons, List.countP_nil, alertFor_alert, List.mem_cons]
        · have hne : c.poNumber ≠ pn := fun hE => hp hE.symm
          simp [List.countP_cons, List.countP_nil, alertFor_alert, hne,
            List.mem_cons, hp, beq_iff_eq]
  | some cid =>
      by_cases h : cid ∈ st.voidedCheckoutIDs
      · rw [decideOver_eq_skip h]; simp
      · cases ho : oracle cid with
        | success =>
            rw [decideOver_eq_success h ho]
            simp [List.countP_cons, List.countP_nil, alertFor_cancelled]
        | authExpired => rw [decideOver_eq_auth h ho]; simp
        | failure => rw [decideOver_eq_fail h ho]; simp

theorem scanPO_alert_count (oracle : String → VoidOutcome) (sd : Int)
    (r : String → Int) (c : String → Option String)
    (l : String → Option TruckSummary) (st : ScanState) (po : PurchaseOrder)
    (pn : String) :
    (scanPO oracle sd r c l st po).actions.countP (alertFor pn)
      + (if pn ∈ st.alertedOverPOs then 1 else 0)
      ≤ (if pn ∈ (scanPO oracle sd r c l st po).state.alertedOverPOs then 1 else 0) := by
  by_cases h : jsInt (r (poKey po)) 0 > palletsInOf po
  · rw [scanPO_eq_over h]
    exact decideOver_alert_count oracle st _ _ pn
  · rw [scanPO_eq_ok h]; simp

theorem processPOs_alert_count (oracle : String → VoidOutcome) (sd : Int)
    (r : String → Int) (c : String → Option String)
    (l : String → Option TruckSummary) (pn : String) :
    ∀ (pos : List PurchaseOrder) (st : ScanState),
      (processPOs oracle sd r c l st pos).actions.countP (alertFor pn)
        + (if pn ∈ st.alertedOverPOs then 1 else 0)
        ≤ (if pn ∈ (processPOs oracle sd r c l st pos).state.alertedOverPOs then 1 else 0) := by
  intro pos
  induction pos with
  | nil => intro st; simp [processPOs]
  | cons po rest ih =>
      intro st
      by_cases ha : (scanPO oracle sd r c l st po).auth401 = true
      · rw [processPOs_cons_auth ha]
        exact scanPO_alert_count oracle sd r c l st po pn
      · rw [processPOs_cons_go (by simpa using ha)]
        have h1 := scanPO_alert_count oracle sd r c l st po pn
        have h2 := ih (scanPO oracle sd r c l st po).state
        simp only [List.countP_append]
        omega

theorem runCycles_alert_count (oracle : String → VoidOutcome) (pn : String) :
    ∀ (cycles : List CycleInput) (st : ScanState),
      (runCycles oracle st cycles).actions.countP (alertFor pn)
        + (if pn ∈ st.alertedOverPOs then 1 else 0)
        ≤ (if pn ∈ (runCycles oracle st cycles).state.alertedOverPOs then 1 else 0) := by
  intro cycles
  induction cycles with
  | nil => intro st; simp [runCycles]
  | cons inp rest ih =>
      intro st
      have h1 := processPOs_alert_count oracle inp.subDept (restacksByPO inp.ancillary)
        (carrierByPO inp.ancillary) (leByTruckID inp.trucks) pn inp.pos st
      have h2 := ih (reconcile oracle st inp).state
      simp only [runCycles, reconcile] at h2 ⊢
      simp only [List.countP_append]
      omega

/-- C4: over any lifetime of scan cycles from the fresh state, at most one
over-no-wallet action is ever emitted for a given PO number; the first
cycle that sees an over-limit PO with no resolvable checkout ID emits
exactly one such action, records the PO number in the alerted set and
reports status OVER; any later cycle seeing the same PO number emits no
action while the status remains OVER. -/
theorem C4_over_no_wallet_alert_once (oracle : String → VoidOutcome)
    (pn : String) (cycles : List CycleInput) :
    (runCycles oracle initialState cycles).actions.countP (alertFor pn) ≤ 1
    ∧ (∀ (sd : Int) (r : String → Int) (c : String → Option String)
         (l : String → Option TruckSummary) (st : ScanState) (po : PurchaseOrder),
        checkoutOf (l (truckKey po)) = none →
        jsInt (r (poKey po)) 0 > palletsInOf po →
        poKey po ∉ st.alertedOverPOs →
        (scanPO oracle sd r c l st po).actions
            = [mkAction .overNoWallet (poCtx sd c l r po) none]
          ∧ (scanPO oracle sd r c l st po).result.status = .OVER
          ∧ (scanPO oracle sd r c l st po).state.alertedOverPOs
              = poKey po :: st.alertedOverPOs
          ∧ (scanPO oracle sd r c l st po).state.voidedCheckoutIDs
              = st.voidedCheckoutIDs
          ∧ (scanPO oracle sd r c l st po).voids = [])
    ∧ (∀ (sd : Int) (r : String → Int) (c : String → Option String)
         (l : String → Option TruckSummary) (st : ScanState) (po : PurchaseOrder),
        checkoutOf (l (truckKey po)) = none →
        jsInt (r (poKey po)) 0 > palletsInOf po →
        poKey po ∈ st.alertedOverPOs →
        (scanPO oracle sd r c l st po).actions = []
          ∧ (scanPO oracle sd r c l st po).result.status = .OVER
          ∧ (scanPO oracle sd r c l st po).state = st
          ∧ (scanPO oracle sd r c l st po).voids = []) := by
  refine ⟨?_, ?_, ?_⟩
  · have h := runCycles_alert_count oracle pn cycles initialState
    have h0 : (if pn ∈ initialState.alertedOverPOs then 1 else 0) = 0 := by
      simp [initialState]
    rw [h0] at h
    have h1 : (if pn ∈ (runCycles oracle initialState cycles).state.alertedOverPOs
        then 1 else 0) ≤ 1 := by split <;> omega
    omega
  · intro sd r c l st po hk hover hmem
    rw [scanPO_eq_over hover, hk, decideOver_eq_alertNew hmem]
    exact ⟨rfl, rfl, rfl, rfl, rfl⟩
  · intro sd r c l st po hk hover hmem
    rw [scanPO_eq_over hover, hk, decideOver_eq_alertSkip hmem]
    exact ⟨rfl, rfl, rfl, rfl⟩

/-- C3: during reconciliation a void failure with status 401 propagates to
the caller immediately — the remaining POs are not evaluated and both dedup
sets are left unmodified — while any other void failure is caught: the PO
keeps status OVER, its checkout ID is not added to the dedup set (so the
void is retried next cycle), and the remaining POs are still evaluated. -/
theorem C3_void_failure_isolation (oracle : String → VoidOutcome) (sd : Int)
    (r : String → Int) (c : String → Option String)
    (l : String → Option TruckSummary) (st : ScanState) (po : PurchaseOrder)
    (rest : List PurchaseOrder) (cid : String)
    (hk : checkoutOf (l (truckKey po)) = some cid)
    (hover : jsInt (r (poKey po)) 0 > palletsInOf po)
    (hmem : cid ∉ st.voidedCheckoutIDs) :
    (oracle cid = .authExpired →
      processPOs oracle sd r c l st (po :: rest) = ⟨st, [], [], [cid], true⟩)
    ∧ (oracle cid = .failure →
        (scanPO oracle sd r c l st po).state = st
        ∧ (scanPO oracle sd r c l st po).result.status = .OVER
        ∧ (scanPO oracle sd r c l st po).voids = [cid]
        ∧ (scanPO oracle sd r c l st po).actions = []
        ∧ processPOs oracle sd r c l st (po :: rest)
            = ⟨(processPOs oracle sd r c l st rest).state,
               (scanPO oracle sd r c l st po).result
                 :: (processPOs oracle sd r c l st rest).poData,
               (processPOs oracle sd r c l st rest).actions,
               [cid] ++ (processPOs oracle sd r c l st rest).voids,
               (processPOs oracle sd r c l st rest).authError⟩) := by
  constructor
  · intro ho
    have hstep : scanPO oracle sd r c l st po
        = ⟨st, mkResult (poCtx sd c l r po) .OVER, [], [cid], true⟩ := by
      rw [scanPO_eq_over hover, hk, decideOver_eq_auth hmem ho]
    rw [processPOs_cons_auth (by rw [hstep]), hstep]
  · intro ho
    have hstep : scanPO oracle sd r c l st po
        = ⟨st, mkResult (poCtx sd c l r po) .OVER, [], [cid], false⟩ := by
      rw [scanPO_eq_over hover, hk, decideOver_eq_fail hmem ho]
    refine ⟨by rw [hstep], by rw [hstep]; rfl, by rw [hstep], by rw [hstep], ?_⟩
    rw [processPOs_cons_go (by rw [hstep]), hstep]
    simp

theorem carrierStep_preserve (m : String → Option String) (it : AncItem)
    (hm : ∀ pn cn, m pn = some cn → cn ≠ "") :
    ∀ pn cn, carrierStep m it pn = some cn → cn ≠ "" := by
  intro pn cn h
  unfold carrierStep at h
  cases hpo : it.pO_Number with
  | none => rw [hpo] at h; exact hm pn cn h
  | some p =>
      rw [hpo] at h
      cases hcar : it.carrier_Name with
      | none => rw [hcar] at h; exact hm pn cn h
      | some cstr =>
          rw [hcar] at h
          by_cases hpe : p = "" ∨ cstr = ""
          · simp only [if_pos hpe] at h; exact hm pn cn h
          · simp only [if_neg hpe] at h
            by_cases hk : pn = p
            · simp only [if_pos hk] at h
              injection h with h2
              subst h2
              push_neg at hpe
              exact hpe.2
            · simp only [if_neg hk] at h
              exact hm pn cn h

theorem carrierByPO_ne_empty (anc : List AncItem) :
    ∀ pn cn, carrierByPO anc pn = some cn → cn ≠ "" := by
  have key : ∀ (xs : List AncItem) (m : String → Option String),
      (∀ pn cn, m pn = some cn → cn ≠ "") →
      ∀ pn cn, xs.foldl carrierStep m pn = some cn → cn ≠ "" := by
    intro xs
    induction xs with
    | nil => intro m hm; exact hm
    | cons it rest ih =>
        intro m hm
        simp only [List.foldl_cons]
        exact ih _ (carrierStep_preserve m it hm)
  exact key anc (fun _ => none) (by intro pn cn h; cases h)

theorem scanPO_carrier (oracle : String → VoidOutcome) (sd : Int)
    (r : String → Int) (c : String → Option String)
    (l : String → Option TruckSummary) (st : ScanState) (po : PurchaseOrder) :
    (scanPO oracle sd r c l st po).result.carrier
      = resolveCarrier c (l (truckKey po)) (poKey po) := by
  obtain ⟨s, hres⟩ := scanPO_result_shape oracle sd r c l st po
  rw [hres]
  rfl

/-- C9: the carrier field of a ScanResult is resolved with precedence —
the carrier name recorded from the ancillary items for that PO number
(last write wins when several items carry one, and recorded names are
never empty), otherwise the carrierName of the truck summary matched by
the PO's truckId, otherwise the empty string. -/
theorem C9_carrier_precedence (oracle : String → VoidOutcome) (sd : Int)
    (r : String → Int) (c : String → Option String)
    (l : String → Option TruckSummary) (st : ScanState) (po : PurchaseOrder)
    (xs : List AncItem) (it : AncItem) (pn cn : String) (t : TruckSummary) :
    ((scanPO oracle sd r c l st po).result.carrier
        = resolveCarrier c (l (truckKey po)) (poKey po))
    ∧ (it.pO_Number = some pn → it.carrier_Name = some cn → pn ≠ "" → cn ≠ "" →
        carrierByPO (xs ++ [it]) pn = some cn)
    ∧ (∀ cn2, carrierByPO xs pn = some cn2 → cn2 ≠ "")
    ∧ (c (poKey po) = some cn → cn ≠ "" →
        (scanPO oracle sd r c l st po).result.carrier = cn)
    ∧ (c (poKey po) = none → l (truckKey po) = some t → t.carrierName = some cn →
        cn ≠ "" → (scanPO oracle sd r c l st po).result.carrier = cn)
    ∧ (c (poKey po) = none → l (truckKey po) = none →
        (scanPO oracle sd r c l st po).result.carrier = "")
    ∧ (c (poKey po) = none → l (truckKey po) = some t → t.carrierName = none →
        (scanPO oracle sd r c l st po).result.carrier = "") := by
  refine ⟨scanPO_carrier oracle sd r c l st po, ?_, carrierByPO_ne_empty xs pn, ?_, ?_, ?_, ?_⟩
  · intro hpo hcar hpn hcn
    unfold carrierByPO
    rw [List.foldl_append]
    simp only [List.foldl_cons, List.foldl_nil]
    unfold carrierStep
    rw [hpo, hcar]
    have hor : ¬ (pn = "" ∨ cn = "") := by
      push_neg; exact ⟨hpn, hcn⟩
    simp [hor]
  · intro hc hcn
    rw [scanPO_carrier oracle sd r c l st po]
    simp [resolveCarrier, hc, jsStr, hcn]
  · intro hc hlt hcar hcn
    rw [scanPO_carrier oracle sd r c l st po]
    simp [resolveCarrier, hc, hlt, hcar, jsStr, hcn]
  · intro hc hlt
    rw [scanPO_carrier oracle sd r c l st po]
    simp [resolveCarrier, hc, hlt, jsStr]
  · intro hc hlt hcar
    rw [scanPO_carrier oracle sd r c l st po]
    simp [resolveCarrier, hc, hlt, hcar, jsStr]

/-- C10: a driverWalletCheckoutID that is present but equal to the empty
string is treated exactly as if no checkout ID exists — no void call is
attempted, and the over-no-wallet path is taken: one alert action on first
occurrence, none afterwards, status OVER either way. -/
theorem C10_empty_checkout_is_none (oracle : String → VoidOutcome) (sd : Int)
    (r : String → Int) (c : String → Option String)
    (l : String → Option TruckSummary) (st : ScanState) (po : PurchaseOrder)
    (t : TruckSummary) (hdw : t.driverWalletCheckoutID = some "")
    (hlt : l (truckKey po) = some t) :
    checkoutOf (l (truckKey po)) = none
    ∧ (jsInt (r (poKey po)) 0 > palletsInOf po →
        (scanPO oracle sd r c l st po).voids = []
        ∧ (scanPO oracle sd r c l st po).result.status = .OVER
        ∧ (poKey po ∉ st.alertedOverPOs →
            (scanPO oracle sd r c l st po).actions
              = [mkAction .overNoWallet (poCtx sd c l r po) none])
        ∧ (poKey po ∈ st.alertedOverPOs →
            (scanPO oracle sd r c l st po).actions = [])) := by
  have hco : checkoutOf (l (truckKey po)) = none := by
    rw [hlt]
    simp [checkoutOf, hdw]
  refine ⟨hco, ?_⟩
  intro hover
  rw [scanPO_eq_over hover, hco]
  by_cases hmem : poKey po ∈ st.alertedOverPOs
  · rw [decideOver_eq_alertSkip hmem]
    exact ⟨rfl, rfl, fun hE => absurd hmem hE, fun _ => rfl⟩
  · rw [decideOver_eq_alertNew hmem]
    exact ⟨rfl, rfl, fun _ => rfl, fun hE => absurd hE hmem⟩

/-- C5: in a per-sub-department scan, failure of the third (truck-summary)
fetch is tolerated — it is logged and reconciliation proceeds with an empty
truck list — unless the thrown error carries status 401, in which case it
propagates out of the scan instead of being swallowed. -/
theorem C5_truck_fetch_tolerated (oracle : String → VoidOutcome) (sd : Int)
    (pos : List PurchaseOrder) (anc : List AncItem) (st : ScanState)
    (e : FetchError) :
    (e.statusField ≠ some 401 →
      scanOne oracle sd (.ok pos) (.ok anc) (.error e) st
        = .ok (processPOs oracle sd (restacksByPO anc) (carrierByPO anc)
            (leByTruckID []) st pos))
    ∧ (e.statusField = some 401 →
        scanOne oracle sd (.ok pos) (.ok anc) (.error e) st = .error e) := by
  constructor
  · intro h
    simp only [scanOne, leTrucksFetch, h, if_neg h]
    rfl
  · intro h
    simp only [scanOne, leTrucksFetch, h, if_pos h]
    rfl

/-- C6: each upstream fetch wrapper classifies its outcome into exactly
three failure kinds: HTTP 401 raises an auth-expired error distinguishable
by its status field; any other non-2xx raises an upstream error carrying
the status and path; a 2xx body that is not valid JSON raises a
malformed-response error whose body snippet is capped at 200 characters;
and a 2xx body that parses returns the parsed value. -/
theorem C6_fetch_classification {α : Type} (parse : String → Option α)
    (endpoint : String) (res : HttpResponse) (j : α) :
    (res.status = 401 →
      fetchApex parse endpoint res = .error (.authExpired 401)
      ∧ fetchLoadEntry parse endpoint res = .error (.authExpired 401)
      ∧ (FetchError.authExpired 401).statusField = some 401)
    ∧ (res.status ≠ 401 → resOk res = false →
        fetchApex parse endpoint res = .error (.upstream res.status endpoint)
        ∧ fetchLoadEntry parse endpoint res = .error (.upstream res.status endpoint)
        ∧ (FetchError.upstream res.status endpoint).statusField = none)
    ∧ (resOk res = true → parse res.body = none →
        fetchApex parse endpoint res
            = .error (.malformed endpoint (jsSubstring res.body 200))
        ∧ fetchLoadEntry parse endpoint res
            = .error (.malformed endpoint (jsSubstring res.body 200))
        ∧ (jsSubstring res.body 200).length ≤ 200
        ∧ (FetchError.malformed endpoint (jsSubstring res.body 200)).statusField = none)
    ∧ (resOk res = true → parse res.body = some j →
        fetchApex parse endpoint res = .ok j
        ∧ fetchLoadEntry parse endpoint res = .ok j) := by
  have hlen : (jsSubstring res.body 200).length ≤ 200 := by
    simp only [jsSubstring, String.length]
    exact List.length_take_le 200 res.body.data
  refine ⟨?_, ?_, ?_, ?_⟩
  · intro h
    refine ⟨?_, ?_, rfl⟩ <;> simp [fetchApex, fetchLoadEntry, h]
  · intro h hok
    refine ⟨?_, ?_, rfl⟩ <;> simp [fetchApex, fetchLoadEntry, h, hok]
  · intro hok hparse
    have h401 : res.status ≠ 401 := by
      intro hE
      rw [resOk, hE] at hok
      simp at hok
    refine ⟨?_, ?_, hlen, rfl⟩ <;> simp [fetchApex, fetchLoadEntry, h401, hok, hparse]
  · intro hok hparse
    have h401 : res.status ≠ 401 := by
      intro hE
      rw [resOk, hE] at hok
      simp at hok
    constructor <;> simp [fetchApex, fetchLoadEntry, h401, hok, hparse]

/-- C7: the operational date is the previous calendar day when the hour is
in [0,2) and the current calendar day when the hour is in [2,24); the two
derived formatters render this operational date as MM-DD-YYYY and
YYYY-MM-DD respectively, with zero-padded month and day. -/
theorem C7_operational_date (now : WallClock) :
    (now.hour < 2 → getOperationalDate now = prevDay now.date)
    ∧ (2 ≤ now.hour → getOperationalDate now = now.date)
    ∧ todayApex now
        = pad2 (getOperationalDate now).month ++ "-"
          ++ pad2 (getOperationalDate now).day ++ "-"
          ++ toString (getOperationalDate now).year
    ∧ todayLoadEntry now
        = toString (getOperationalDate now).year ++ "-"
          ++ pad2 (getOperationalDate now).month ++ "-"
          ++ pad2 (getOperationalDate now).day
    ∧ (∀ n, n < 100 → (pad2 n).length = 2)
    ∧ (∀ n, n < 10 → pad2 n = "0" ++ toString n) := by
  refine ⟨?_, ?_, rfl, rfl, ?_, ?_⟩
  · intro h
    simp [getOperationalDate, h]
  · intro h
    rw [getOperationalDate, if_neg (by omega)]
  · decide
  · decide

/-- Witness for C1 at a concrete input: a succeeding oracle, checkout ID
"CO123", one cycle over the sample data. -/
theorem C1_witness :
    (runCycles oracleOK initialState [sampleInput]).voids.count "CO123" ≤ 1 :=
  (C1_checkout_voided_at_most_once oracleOK "CO123" [sampleInput] rfl).1

/-- Witness for C2: with no restacks recorded, the sample PO comes out OK. -/
theorem C2_witness :
    (scanPO oracleOK 85 (fun _ => 0) (carrierByPO [sampleAnc])
        (leByTruckID [sampleTruck]) initialState samplePO).result.status = .OK :=
  ((C2_palletsIn_sum_and_ok_when_not_over oracleOK 85 (fun _ => 0)
      (carrierByPO [sampleAnc]) (leByTruckID [sampleTruck]) initialState samplePO
      [sampleAnc]).2.2.1 (by decide)).1

/-- Witness for C3: a void call raising 401 on the sample over-limit PO
aborts the cycle with the dedup state untouched. -/
theorem C3_witness :
    processPOs oracleAuth 85 (restacksByPO [sampleAnc]) (carrierByPO [sampleAnc])
        (leByTruckID [sampleTruck]) initialState [samplePO]
      = ⟨initialState, [], [], ["CO123"], true⟩ :=
  (C3_void_failure_isolation oracleAuth 85 (restacksByPO [sampleAnc])
      (carrierByPO [sampleAnc]) (leByTruckID [sampleTruck]) initialState samplePO
      [] "CO123" (by decide) (by decide) (by decide)).1 rfl

/-- Witness for C4: the first sight of the sample over-limit PO with an
empty checkout ID emits exactly one over-no-wallet action. -/
theorem C4_witness :
    (scanPO oracleOK 85 (restacksByPO [sampleAnc]) (carrierByPO [sampleAnc])
        (leByTruckID [sampleTruckNW]) initialState samplePO).actions
      = [mkAction .overNoWallet (poCtx 85 (carrierByPO [sampleAnc])
          (leByTruckID [sampleTruckNW]) (restacksByPO [sampleAnc]) samplePO) none] :=
  ((C4_over_no_wallet_alert_once oracleOK "P1" []).2.1 85
      (restacksByPO [sampleAnc]) (carrierByPO [sampleAnc])
      (leByTruckID [sampleTruckNW]) initialState samplePO
      (by decide) (by decide) (by decide)).1

/-- Witness for C5: a 500 failure of the truck fetch is tolerated and the
scan proceeds with an empty truck list. -/
theorem C5_witness :
    scanOne oracleOK 85 (.ok [samplePO]) (.ok [sampleAnc])
        (.error (.upstream 500 "truckSummaries/85/2025-01-02/")) initialState
      = .ok (processPOs oracleOK 85 (restacksByPO [sampleAnc])
          (carrierByPO [sampleAnc]) (leByTruckID []) initialState [samplePO]) :=
  (C5_truck_fetch_tolerated oracleOK 85 [samplePO] [sampleAnc] initialState
      (.upstream 500 "truckSummaries/85/2025-01-02/")).1 (by decide)

/-- Witness for C6: a 200 response whose body does not parse yields the
malformed-response error with the capped snippet. -/
theorem C6_witness :
    fetchApex (fun _ => (none : Option Nat)) "pos" ⟨200, "oops"⟩
      = .error (.malformed "pos" (jsSubstring "oops" 200)) :=
  ((C6_fetch_classification (fun _ => (none : Option Nat)) "pos" ⟨200, "oops"⟩
      0).2.2.1 rfl rfl).1

/-- Witness for C7: at 01:00 on 2025-03-01 the operational date is the
previous calendar day. -/
theorem C7_witness :
    getOperationalDate ⟨⟨2025, 3, 1⟩, 1⟩ = prevDay ⟨2025, 3, 1⟩ :=
  (C7_operational_date ⟨⟨2025, 3, 1⟩, 1⟩).1 (by decide)

/-- Witness for C8: the sample fee name "RESTACK " contributes to the sum
for PO "P1". -/
theorem C8_witness :
    restacksByPO [sampleAnc] "P1"
      = (([sampleAnc].filter (contributes "P1")).map
          (fun x => jsNum x.quantity 0)).sum :=
  (C8_restack_fee_matching [sampleAnc] "P1" sampleAnc (by decide)).1

/-- Witness for C9: the ancillary carrier "ACME" wins over the truck
summary's carrier name. -/
theorem C9_witness :
    (scanPO oracleOK 85 (restacksByPO [sampleAnc]) (carrierByPO [sampleAnc])
        (leByTruckID [sampleTruck]) initialState samplePO).result.carrier
      = "ACME" :=
  (C9_carrier_precedence oracleOK 85 (restacksByPO [sampleAnc])
      (carrierByPO [sampleAnc]) (leByTruckID [sampleTruck]) initialState samplePO
      [] sampleAnc "P1" "ACME" sampleTruck).2.2.2.1 (by decide) (by decide)

/-- Witness for C10: the sample truck with an empty checkout ID resolves to
no checkout at all. -/
theorem C10_witness :
    checkoutOf (leByTruckID [sampleTruckNW] (truckKey samplePO)) = none :=
  (C10_empty_checkout_is_none oracleOK 85 (restacksByPO [sampleAnc])
      (carrierByPO [sampleAnc]) (leByTruckID [sampleTruckNW]) initialState
      samplePO sampleTruckNW rfl (by decide)).1

end PalletGuard
